import Mathlib

/-!
Verification of the OpenStack rabbit consumer against its specification.

The registry client (`rabbit_consumer/aq_api.py`) is embedded directly from
the source.  HTTP, the Kerberos ticket cache and the registry service are
modelled by an explicit environment (`RegistryWorld`): the exit status the
`klist -s` subprocess would return, and the (status code, body) the registry
would answer to a given request.  Each client operation returns an `Outcome`:
the result (normal return or raised exception), the list of HTTP requests it
issued, and the error-level log lines it emitted.

The event dispatcher and provisioning orchestrator (`message_consumer.py`)
are not part of the source tree (only their tests are), so those definitions
are modelled from the specification; each such definition says so in its
doc comment.
-/

/-- A single HTTP request as issued by `setup_requests`: the full URL, the
HTTP method, and the human-readable description passed by the caller. -/
structure HttpRequest where
  url : String
  method : String
  desc : String
deriving Repr, DecidableEq

/-- The exceptions the registry client can raise: `aquilonError` models the
`AquilonError` domain error raised on a 400 response, `connectionError` the
built-in `ConnectionError` raised on any other non-200 response,
`runtimeError` the `RuntimeError` raised when no Kerberos ticket is found,
and `valueError` the `ValueError` raised by `aq_make` on a blank hostname. -/
inductive AqErr where
  | aquilonError (msg : String)
  | connectionError (msg : String)
  | runtimeError (msg : String)
  | valueError (msg : String)
deriving Repr, DecidableEq

/-- The observable outcome of running one client operation: the returned
value or raised exception, the HTTP requests issued (in order), and the
error-level log lines emitted (in order). -/
structure Outcome (α : Type) where
  result : Except AqErr α
  requests : List HttpRequest
  logs : List String

/-- The environment a registry-client call runs in: the exit status of the
`klist -s` subprocess, and the registry's response (status code, body) to
each request. -/
structure RegistryWorld where
  klistExit : Nat
  respond : HttpRequest → Nat × String

/-- The fields of `ConsumerConfig` used by `aq_api.py`. -/
structure ConsumerConfig where
  aq_url : String
  aq_domain : String
  aq_personality : String
  aq_archetype : String

/-- The fields of `AqFields` consumed by `aq_make`; a Python `None` or
empty value is modelled as the empty string. -/
structure AqFields where
  personality : String
  osversion : String
  archetype : String
  osname : String

/-- The parts of a rabbit message read by `create_machine`:
`message.get("payload").get(...)` for vcpus, memory_mb, instance_id, host. -/
structure Payload where
  vcpus : Nat
  memory_mb : Nat
  instance_id : String
  host : String

/-- A rabbit message, as far as `create_machine` reads it. -/
structure RabbitMessage where
  payload : Payload

/-- Whether the first list is a leading segment of the second
(helper for the Python `in` substring test, kernel-computable). -/
def listIsPre : List Char → List Char → Bool
  | [], _ => true
  | _ :: _, [] => false
  | a :: as, b :: bs => a == b && listIsPre as bs

/-- Whether the first list occurs contiguously inside the second
(helper for the Python `in` substring test, kernel-computable). -/
def listSub : List Char → List Char → Bool
  | s, [] => s.isEmpty
  | s, b :: bs => listIsPre s (b :: bs) || listSub s bs

/-- The Python expression `sub in s` on strings: substring occurrence. -/
def py_in (sub s : String) : Bool :=
  listSub sub.data s.data

/-- The Python test `not str(v).strip()`: the string is empty or all
whitespace (kernel-computable, unlike `String.trim`). -/
def pyBlank (s : String) : Bool :=
  s.data.all Char.isWhitespace

/-- Embeds `verify_kerberos_ticket` (aq_api.py lines 42-49): raises
`RuntimeError` exactly when `subprocess.call(["klist", "-s"])` returns 1,
otherwise returns True. -/
def verify_kerberos_ticket (w : RegistryWorld) : Except AqErr Bool :=
  if w.klistExit == 1 then
    Except.error (AqErr.runtimeError "No shared Kerberos ticket found.")
  else
    Except.ok true

/-- Embeds `setup_requests` (aq_api.py lines 52-84): verify the Kerberos
ticket, issue one request, then classify the response: 400 raises
`AquilonError` with the body as message; any other non-200 logs the failure
and the URL at error level and raises `ConnectionError`; 200 returns the
body.  (The literal `\x7bresponse.text\x7d` in the `ConnectionError` message
mirrors the source, where the second string literal is not an f-string.) -/
def setup_requests (w : RegistryWorld) (url method desc : String) : Outcome String :=
  match verify_kerberos_ticket w with
  | Except.error e => ⟨Except.error e, [], []⟩
  | Except.ok _ =>
    let req : HttpRequest := ⟨url, method, desc⟩
    let status := (w.respond req).1
    let text := (w.respond req).2
    if status == 400 then
      ⟨Except.error (AqErr.aquilonError text), [req], []⟩
    else if status != 200 then
      ⟨Except.error (AqErr.connectionError
          ("Failed " ++ desc ++ ": " ++ toString status ++ " -\x7bresponse.text\x7d")),
       [req], [desc ++ ": Failed: " ++ text, url]⟩
    else
      ⟨Except.ok text, [req], []⟩

/-- Embeds `aq_make` (aq_api.py lines 87-111): drop empty/whitespace
parameter values, reject a blank hostname with `ValueError`, build the make
URL (trimming a trailing `?` when no parameters survive), POST it. -/
def aq_make (cfg : ConsumerConfig) (w : RegistryWorld) (hostname : String)
    (aq_fields : AqFields) : Outcome String :=
  let params := [("personality", aq_fields.personality),
                 ("osversion", aq_fields.osversion),
                 ("archetype", aq_fields.archetype),
                 ("osname", aq_fields.osname)].filter (fun kv => !pyBlank kv.2)
  if pyBlank hostname then
    ⟨Except.error (AqErr.valueError "An empty hostname cannot be used."), [], []⟩
  else
    let url0 := cfg.aq_url ++ "/host/" ++ hostname ++ "/command/make" ++ "?" ++
      String.intercalate "&" (params.map (fun kv => kv.1 ++ "=" ++ kv.2))
    let url := if url0.back == '?' then url0.dropRight 1 else url0
    setup_requests w url "post" "Make Template: "

/-- Embeds `aq_manage` (aq_api.py lines 114-119): POST the manage URL built
from `MANAGE_SUFFIX`. -/
def aq_manage (cfg : ConsumerConfig) (w : RegistryWorld)
    (hostname env_type env_name : String) : Outcome String :=
  setup_requests w
    (cfg.aq_url ++ "/host/" ++ hostname ++ "/command/manage?hostname=" ++ hostname
      ++ "&" ++ env_type ++ "=" ++ env_name ++ "&force=true")
    "post" "Manage Host"

/-- Embeds `create_machine` (aq_api.py lines 122-135): PUT the
`CREATE_MACHINE_SUFFIX` URL built from the message payload and return the
response body (the new machine name). -/
def create_machine (cfg : ConsumerConfig) (w : RegistryWorld)
    (message : RabbitMessage) (hostname pre : String) : Outcome String :=
  setup_requests w
    (cfg.aq_url ++ "/next_machine/" ++ pre ++ "?model=vm-openstack&serial="
      ++ message.payload.instance_id ++ "&vmhost=" ++ message.payload.host
      ++ "&cpucount=" ++ toString message.payload.vcpus
      ++ "&memory=" ++ toString message.payload.memory_mb)
    "put" "Create Machine"

/-- Embeds `delete_machine` (aq_api.py lines 138-143): DELETE the machine
URL. -/
def delete_machine (cfg : ConsumerConfig) (w : RegistryWorld)
    (machinename : String) : Outcome String :=
  setup_requests w (cfg.aq_url ++ "/machine/" ++ machinename) "delete" "Delete Machine"

/-- Embeds `create_host` (aq_api.py lines 146-175): PUT the host URL with
defaults for domain/personality/archetype taken from configuration. -/
def create_host (cfg : ConsumerConfig) (w : RegistryWorld)
    (hostname machinename firstip osname osversion : String) : Outcome String :=
  setup_requests w
    (cfg.aq_url ++ "/host/" ++ hostname ++ "?machine=" ++ machinename
      ++ "&ip=" ++ firstip ++ "&archetype=" ++ cfg.aq_archetype
      ++ "&domain=" ++ cfg.aq_domain ++ "&personality=" ++ cfg.aq_personality
      ++ "&osname=" ++ osname ++ "&osversion=" ++ osversion)
    "put" "Host Create"

/-- Embeds `delete_host` (aq_api.py lines 178-181): DELETE the host URL. -/
def delete_host (cfg : ConsumerConfig) (w : RegistryWorld)
    (hostname : String) : Outcome String :=
  setup_requests w (cfg.aq_url ++ "/host/" ++ hostname) "delete" "Host Delete"

/-- Embeds `add_machine_interface` (aq_api.py lines 184-193): PUT the
`ADD_INTERFACE_SUFFIX` URL. -/
def add_machine_interface (cfg : ConsumerConfig) (w : RegistryWorld)
    (machinename macaddr interfacename : String) : Outcome String :=
  setup_requests w
    (cfg.aq_url ++ "/machine/" ++ machinename ++ "/interface/" ++ interfacename
      ++ "?mac=" ++ macaddr)
    "put" "Add Machine Interface"

/-- Embeds `add_machine_interface_address` (aq_api.py lines 196-203): PUT
the `ADD_INTERFACE_ADDRESS_SUFFIX` URL. -/
def add_machine_interface_address (cfg : ConsumerConfig) (w : RegistryWorld)
    (machinename ipaddr interfacename hostname : String) : Outcome String :=
  setup_requests w
    (cfg.aq_url ++ "/interface_address?machine=" ++ machinename
      ++ "&interface=" ++ interfacename ++ "&ip=" ++ ipaddr ++ "&fqdn=" ++ hostname)
    "put" "Add Machine Interface Address"

/-- Embeds `update_machine_interface` (aq_api.py lines 206-213): POST the
`UPDATE_INTERFACE_SUFFIX` URL that marks the interface bootable and the
default route. -/
def update_machine_interface (cfg : ConsumerConfig) (w : RegistryWorld)
    (machinename interfacename : String) : Outcome String :=
  setup_requests w
    (cfg.aq_url ++ "/machine/" ++ machinename ++ "/interface/" ++ interfacename
      ++ "?boot&default_route")
    "post" "Update Machine Interface"

/-- Truthiness of an optional Python string: `None` and `""` are falsy. -/
def pyTruthy (o : Option String) : Bool :=
  o.getD "" != ""

/-- Python string interpolation of an optional string: `None` renders as
the string "None". -/
def pyStr (o : Option String) : String :=
  match o with
  | none => "None"
  | some s => s

/-- Embeds `set_env` (aq_api.py lines 216-222): manage into the domain when
`domain` is truthy, otherwise into the sandbox (even a `None` sandbox), then
make templates; an exception from `aq_manage` propagates before `aq_make`
runs. -/
def set_env (cfg : ConsumerConfig) (w : RegistryWorld) (aq_details : AqFields)
    (domain : Option String) (hostname : String) (sandbox : Option String) :
    Outcome String :=
  let m :=
    if pyTruthy domain then aq_manage cfg w hostname "domain" (pyStr domain)
    else aq_manage cfg w hostname "sandbox" (pyStr sandbox)
  match m.result with
  | Except.error e => ⟨Except.error e, m.requests, m.logs⟩
  | Except.ok _ =>
    let k := aq_make cfg w hostname aq_details
    ⟨k.result, m.requests ++ k.requests, m.logs ++ k.logs⟩

/-- Embeds `check_host_exists` (aq_api.py lines 225-234): GET the host URL;
an `AquilonError` whose message contains "Host {hostname} not found." is the
normal negative answer; any other error propagates. -/
def check_host_exists (cfg : ConsumerConfig) (w : RegistryWorld)
    (hostname : String) : Outcome Bool :=
  let r := setup_requests w (cfg.aq_url ++ "/host/" ++ hostname) "get" "Check Host"
  match r.result with
  | Except.ok _ => ⟨Except.ok true, r.requests, r.logs⟩
  | Except.error (AqErr.aquilonError msg) =>
    if py_in ("Host " ++ hostname ++ " not found.") msg then
      ⟨Except.ok false, r.requests, r.logs⟩
    else
      ⟨Except.error (AqErr.aquilonError msg), r.requests, r.logs⟩
  | Except.error e => ⟨Except.error e, r.requests, r.logs⟩

/-- The `RuntimeError` raised when no Kerberos ticket is present. -/
def kerbErr : AqErr :=
  AqErr.runtimeError "No shared Kerberos ticket found."

/-- One network attachment discovered for an instance (spec §3,
NetworkBinding): mac, ip, fqdn and interface name. -/
structure NetworkBinding where
  macAddress : String
  ipAddress : String
  fqdn : String
  interfaceName : String
deriving Repr, DecidableEq

/-- The identity data the orchestrator carries for one instance. -/
structure VmData where
  instanceId : String
deriving Repr, DecidableEq

/-- One step of the create/delete saga, recorded in the order the
orchestrator performs it.  `metadataWrite` records the instance id and the
comma-joined hostnames written back to the cloud platform. -/
inductive SagaCall where
  | deleteMachineCall (name : String)
  | createMachineCall
  | addInterface (machine iface mac : String)
  | addInterfaceAddress (machine iface ip fqdn : String)
  | setBootable (machine iface : String)
  | createHostCall (hostname machine ip : String)
  | manageCall
  | makeTemplatesCall
  | metadataWrite (instanceId hostnames : String)
deriving Repr, DecidableEq

/-- The position of a saga call in the specified create order (spec §4.3
steps 2-8); used to state that traces are ordered. -/
def phase : SagaCall → Nat
  | SagaCall.deleteMachineCall _ => 0
  | SagaCall.createMachineCall => 1
  | SagaCall.addInterface _ _ _ => 2
  | SagaCall.addInterfaceAddress _ _ _ _ => 2
  | SagaCall.setBootable _ _ => 3
  | SagaCall.createHostCall _ _ _ => 4
  | SagaCall.manageCall => 5
  | SagaCall.makeTemplatesCall => 6
  | SagaCall.metadataWrite _ _ => 7

/-- Whether a saga call is an interface-attachment call
(`addMachineInterface` or `addMachineInterfaceAddress`). -/
def isInterfaceCall : SagaCall → Bool
  | SagaCall.addInterface _ _ _ => true
  | SagaCall.addInterfaceAddress _ _ _ _ => true
  | _ => false

/-- Whether a saga call is the bootable/default-route marking call. -/
def isBootableCall : SagaCall → Bool
  | SagaCall.setBootable _ _ => true
  | _ => false

/-- Whether a saga call is the `createHost` call. -/
def isCreateHostCall : SagaCall → Bool
  | SagaCall.createHostCall _ _ _ => true
  | _ => false

/-- Whether a saga call is the metadata write-back. -/
def isMetadataWrite : SagaCall → Bool
  | SagaCall.metadataWrite _ _ => true
  | _ => false

/-- The environment one create saga runs against: whether the instance
exists in the cloud platform at validation time, the image's tag map, the
network bindings discovered for the instance, the machine name the registry
returns, whether a stale machine record already exists, which registry calls
succeed, and whether the instance is still visible when the metadata
write-back is attempted. -/
structure SagaWorld where
  instanceExists : Bool
  imageTags : List (String × String)
  bindings : List NetworkBinding
  machineName : String
  staleExists : Bool
  callOk : SagaCall → Bool
  existsAtEnd : Bool

/-- Modelled from the spec: `is_aq_managed_image` (message_consumer.py is
not under src).  Spec §4.2: managed iff the image tag map contains the
managed-image marker (the `AQ_OS` key exercised by the tests) with a truthy
value. -/
def is_aq_managed_image (tags : List (String × String)) : Bool :=
  match tags.lookup "AQ_OS" with
  | some v => v != ""
  | none => false

/-- Modelled from the spec: `check_machine_valid` (message_consumer.py is
not under src).  Spec §4.2: true iff the instance still exists and the image
is managed; existence is checked first and a vanished instance returns false
immediately without invoking the image check.  The second component records
whether the image check was invoked. -/
def check_machine_valid (w : SagaWorld) : Bool × Bool :=
  if w.instanceExists then (is_aq_managed_image w.imageTags, true)
  else (false, false)

/-- The interface-attachment calls for a binding list (spec §4.3 step 4):
for every binding, attach the interface and then its address. -/
def nicCalls (machine : String) : List NetworkBinding → List SagaCall
  | [] => []
  | b :: bs =>
    SagaCall.addInterface machine b.interfaceName b.macAddress ::
    SagaCall.addInterfaceAddress machine b.interfaceName b.ipAddress b.fqdn ::
    nicCalls machine bs

/-- The fqdn of the first (primary) binding, or "" for an empty list. -/
def headFqdn (bs : List NetworkBinding) : String :=
  (bs.head?.map NetworkBinding.fqdn).getD ""

/-- The ip of the first (primary) binding, or "" for an empty list. -/
def headIp (bs : List NetworkBinding) : String :=
  (bs.head?.map NetworkBinding.ipAddress).getD ""

/-- The comma-joined fully-qualified hostnames of a binding list. -/
def hostnamesOf (bs : List NetworkBinding) : String :=
  String.intercalate "," (bs.map NetworkBinding.fqdn)

/-- Modelled from the spec: the registry-call plan of one validated create
saga (message_consumer.py is not under src).  Spec §4.3 steps 2-7: delete a
stale machine record if one exists, create the machine, attach every
binding's interface and address, mark the first binding's interface
bootable, create the host from the primary binding, manage, make
templates. -/
def plan (w : SagaWorld) : List SagaCall :=
  (if w.staleExists then [SagaCall.deleteMachineCall w.machineName] else [])
  ++ [SagaCall.createMachineCall]
  ++ nicCalls w.machineName w.bindings
  ++ (match w.bindings with
      | [] => []
      | b :: _ => [SagaCall.setBootable w.machineName b.interfaceName])
  ++ [SagaCall.createHostCall (headFqdn w.bindings) w.machineName (headIp w.bindings)]
  ++ [SagaCall.manageCall, SagaCall.makeTemplatesCall]

/-- Runs planned registry calls in order, stopping at the first failing
call (spec §4.3 failure policy: any exception aborts the remaining steps).
Returns the calls actually attempted and whether all of them succeeded. -/
def runCalls (w : SagaWorld) : List SagaCall → List SagaCall × Bool
  | [] => ([], true)
  | c :: cs =>
    if w.callOk c then ((c :: (runCalls w cs).1), (runCalls w cs).2)
    else ([c], false)

/-- Modelled from the spec: `add_hostname_to_metadata` (message_consumer.py
is not under src).  Spec §4.3 step 8: only when the instance is still
visible in the cloud platform, write HOSTNAMES (comma-joined fqdns) and the
AQ_STATUS SUCCESS marker; otherwise write nothing. -/
def add_hostname_to_metadata (machineExists : Bool) (bs : List NetworkBinding) :
    Option (List (String × String)) :=
  if machineExists then
    some [("HOSTNAMES", hostnamesOf bs), ("AQ_STATUS", "SUCCESS")]
  else none

/-- Modelled from the spec: `handle_create_machine` (message_consumer.py is
not under src).  Spec §4.3: validate via the eligibility gate (no registry
call when it fails), run the planned registry calls in order aborting on the
first failure, and perform the metadata write-back only when every call
succeeded and the instance is still visible. -/
def handle_create_machine (w : SagaWorld) (vm : VmData) : List SagaCall :=
  if (check_machine_valid w).1 then
    let r := runCalls w (plan w)
    r.1 ++ (if r.2 && w.existsAtEnd then
              [SagaCall.metadataWrite vm.instanceId (hostnamesOf w.bindings)]
            else [])
  else []

/-- An inbound lifecycle event type: the two supported types, or anything
else (spec §3 LifecycleEvent). -/
inductive EventType where
  | created
  | deleted
  | other (s : String)
deriving Repr, DecidableEq

/-- Whether an event type is in the supported set (spec §4.4). -/
def supportedEvent : EventType → Bool
  | EventType.created => true
  | EventType.deleted => true
  | EventType.other _ => false

/-- What the dispatcher did with one message: how many times it
acknowledged it, how many times the eligibility gate was invoked, and how
many times a create/delete handler was invoked. -/
structure DispatchResult where
  acks : Nat
  gateCalls : Nat
  handlerCalls : Nat
deriving Repr, DecidableEq

/-- Modelled from the spec: `on_message` (message_consumer.py is not under
src).  Spec §4.4: decode the event; an unsupported event type is logged and
acknowledged without invoking the gate or a handler; a supported one is
routed to its handler (the gate runs inside the create handler) and the
message is acknowledged exactly once after the handler returns, whether or
not the handler raised (`handlerRaises`). -/
def on_message (handlerRaises : Bool) (ev : EventType) : DispatchResult :=
  if supportedEvent ev then
    { acks := 1
      gateCalls := match ev with
        | EventType.created => 1
        | _ => 0
      handlerCalls := 1 }
  else
    { acks := 1, gateCalls := 0, handlerCalls := 0 }

/-- Modelled from the spec: `handle_machine_delete` (message_consumer.py is
not under src).  Spec §4.3 and §7: issue one `deleteMachine` call via the
registry client (embedded from aq_api.py); a 400 domain error whose message
says "not found" is treated as success; any other outcome propagates. -/
def handle_machine_delete (cfg : ConsumerConfig) (w : RegistryWorld)
    (machinename : String) : Outcome Unit :=
  let d := delete_machine cfg w machinename
  { result :=
      match d.result with
      | Except.ok _ => Except.ok ()
      | Except.error (AqErr.aquilonError msg) =>
        if py_in "not found" msg then Except.ok ()
        else Except.error (AqErr.aquilonError msg)
      | Except.error e => Except.error e
    requests := d.requests
    logs := d.logs }

/-- The manage request `aq_manage` issues (URL from `MANAGE_SUFFIX`). -/
def manageRequest (cfg : ConsumerConfig) (hostname env_type env_name : String) :
    HttpRequest :=
  ⟨cfg.aq_url ++ "/host/" ++ hostname ++ "/command/manage?hostname=" ++ hostname
      ++ "&" ++ env_type ++ "=" ++ env_name ++ "&force=true",
   "post", "Manage Host"⟩

/-- The delete request `delete_machine` issues. -/
def deleteMachineRequest (cfg : ConsumerConfig) (name : String) : HttpRequest :=
  ⟨cfg.aq_url ++ "/machine/" ++ name, "delete", "Delete Machine"⟩

/-- Whether a request is the manage request (by its description). -/
def isManageReq (r : HttpRequest) : Bool :=
  r.desc == "Manage Host"

/-- The environment pair `set_env` manages into: type "domain" with the
domain name when the domain is truthy, else type "sandbox" with the sandbox
rendered the way Python interpolates it. -/
def envPair (domain sandbox : Option String) : String × String :=
  if pyTruthy domain then ("domain", pyStr domain) else ("sandbox", pyStr sandbox)

/-- A configuration used to instantiate theorems on concrete inputs. -/
def cfg0 : ConsumerConfig :=
  ⟨"https://aq.example.org", "prod-domain", "inventory", "cloud"⟩

/-- A registry world with a valid ticket whose registry answers 200. -/
def wReg200 : RegistryWorld :=
  ⟨0, fun _ => (200, "ok")⟩

/-- A registry world with a valid ticket whose registry answers 404. -/
def wReg404 : RegistryWorld :=
  ⟨0, fun _ => (404, "boom")⟩

/-- A registry world whose `klist -s` exits with status 2. -/
def wReg2 : RegistryWorld :=
  ⟨2, fun _ => (200, "ok")⟩

/-- A registry world with no ticket: `klist -s` exits with status 1. -/
def wRegNoTicket : RegistryWorld :=
  ⟨1, fun _ => (200, "ok")⟩

/-- A registry world answering 400 "not found" to every request. -/
def wRegNotFound : RegistryWorld :=
  ⟨0, fun _ => (400, "Machine vm123 not found.")⟩

/-- A network binding used to instantiate theorems on concrete inputs. -/
def nb0 : NetworkBinding :=
  ⟨"aa:bb", "10.0.0.5", "vm1.example.com", "eth0"⟩

/-- A saga world (existing, managed instance, one binding, every registry
call succeeding) used to instantiate theorems on concrete inputs. -/
def wSaga0 : SagaWorld :=
  ⟨true, [("AQ_OS", "True")], [nb0], "mXYZ", false, fun _ => true, true⟩

/-- A vm identity used to instantiate theorems on concrete inputs. -/
def vm0 : VmData :=
  ⟨"abc-123"⟩

/-- With a valid ticket, `setup_requests` issues exactly the one request it
was asked to issue. -/
theorem setup_requests_one_request (w : RegistryWorld) (url method desc : String)
    (hk : w.klistExit ≠ 1) :
    (setup_requests w url method desc).requests = [⟨url, method, desc⟩] := by
  have hb : (w.klistExit == 1) = false := by simpa using hk
  simp only [setup_requests, verify_kerberos_ticket, hb, Bool.false_eq_true, if_false]
  split
  · rfl
  · split <;> rfl

/-- Every request `setup_requests` records is the request it was asked to
issue. -/
theorem setup_requests_mem (w : RegistryWorld) (url method desc : String)
    (r : HttpRequest) (hr : r ∈ (setup_requests w url method desc).requests) :
    r = ⟨url, method, desc⟩ := by
  simp only [setup_requests] at hr
  split at hr
  · simp at hr
  · split at hr
    · simpa using hr
    · split at hr <;> simpa using hr

/-- Every request `aq_make` issues carries the "Make Template: "
description. -/
theorem aq_make_requests_desc (cfg : ConsumerConfig) (w : RegistryWorld)
    (hostname : String) (f : AqFields) (r : HttpRequest)
    (hr : r ∈ (aq_make cfg w hostname f).requests) : r.desc = "Make Template: " := by
  unfold aq_make at hr
  split at hr
  · simp at hr
  · have := setup_requests_mem w _ _ _ r hr
    rw [this]

/-- The calls the orchestrator actually attempted form a sublist of the
planned calls. -/
theorem runCalls_sublist (w : SagaWorld) (cs : List SagaCall) :
    List.Sublist (runCalls w cs).1 cs := by
  induction cs with
  | nil => simp [runCalls]
  | cons c cs ih =>
    simp only [runCalls]
    split
    · exact ih.cons₂ c
    · exact (List.nil_sublist cs).cons₂ c

/-- When every registry call succeeds, the orchestrator attempts the whole
plan and reports success. -/
theorem runCalls_all_ok (w : SagaWorld) (hok : ∀ c, w.callOk c = true)
    (cs : List SagaCall) : runCalls w cs = (cs, true) := by
  induction cs with
  | nil => rfl
  | cons c cs ih => simp [runCalls, hok, ih]

/-- Every interface-attachment call sits in phase 2 of the saga order. -/
theorem nicCalls_phase (m : String) (bs : List NetworkBinding) :
    ∀ c ∈ nicCalls m bs, phase c = 2 := by
  induction bs with
  | nil => intro c hc; simp [nicCalls] at hc
  | cons b bs ih =>
    intro c hc
    simp only [nicCalls, List.mem_cons] at hc
    rcases hc with h | h | h
    · rw [h]; rfl
    · rw [h]; rfl
    · exact ih c h

/-- No interface-attachment call is the bootable-marking call. -/
theorem nicCalls_filter_boot (m : String) (bs : List NetworkBinding) :
    (nicCalls m bs).filter isBootableCall = [] := by
  induction bs with
  | nil => rfl
  | cons b bs ih => simp [nicCalls, isBootableCall, ih]

/-- No interface-attachment call is the metadata write-back. -/
theorem nicCalls_filter_meta (m : String) (bs : List NetworkBinding) :
    (nicCalls m bs).filter isMetadataWrite = [] := by
  induction bs with
  | nil => rfl
  | cons b bs ih => simp [nicCalls, isMetadataWrite, ih]

/-- Every saga call sits in a phase of at most 7. -/
theorem phase_le_seven (c : SagaCall) : phase c ≤ 7 := by
  cases c <;> simp [phase]

/-- The planned registry calls of a create saga are ordered by phase. -/
theorem plan_pairwise (w : SagaWorld) :
    (plan w).Pairwise (fun a b => phase a ≤ phase b) := by
  have hA : ∀ c ∈ (if w.staleExists then [SagaCall.deleteMachineCall w.machineName]
      else []), phase c = 0 := by
    split
    · intro c hc; simp only [List.mem_singleton] at hc; rw [hc]; rfl
    · intro c hc; simp at hc
  have hN : ∀ c ∈ nicCalls w.machineName w.bindings, phase c = 2 :=
    nicCalls_phase w.machineName w.bindings
  have hB : ∀ c ∈ (match w.bindings with
      | [] => ([] : List SagaCall)
      | b :: _ => [SagaCall.setBootable w.machineName b.interfaceName]),
      phase c = 3 := by
    cases w.bindings with
    | nil => intro c hc; simp at hc
    | cons b bs =>
      intro c hc
      simp only [List.mem_singleton] at hc
      rw [hc]; rfl
  have hT : ∀ c ∈ [SagaCall.createHostCall (headFqdn w.bindings) w.machineName
      (headIp w.bindings), SagaCall.manageCall, SagaCall.makeTemplatesCall],
      3 ≤ phase c := by
    intro c hc
    simp only [List.mem_cons, List.not_mem_nil, or_false] at hc
    rcases hc with h | h | h <;> (rw [h]; simp [phase])
  unfold plan
  simp only [List.append_assoc, List.singleton_append]
  refine List.pairwise_append.mpr ⟨?_, ?_, ?_⟩
  · split <;> simp
  · refine List.pairwise_cons.mpr ⟨?_, ?_⟩
    · intro b hb
      rcases List.mem_append.mp hb with h | h
      · rw [hN b h]; simp [phase]
      · rcases List.mem_append.mp h with h2 | h2
        · rw [hB b h2]; simp [phase]
        · exact le_trans (by simp [phase]) (hT b h2)
    · refine List.pairwise_append.mpr ⟨?_, ?_, ?_⟩
      · exact List.pairwise_of_forall_mem_list
          (fun a ha b hb => by rw [hN a ha, hN b hb])
      · refine List.pairwise_append.mpr ⟨?_, ?_, ?_⟩
        · cases w.bindings <;> simp
        · simp [phase]
        · intro a ha b hb
          rw [hB a ha]
          exact hT b hb
      · intro a ha b hb
        rw [hN a ha]
        rcases List.mem_append.mp hb with h | h
        · rw [hB b h]; norm_num
        · exact le_trans (by norm_num) (hT b h)
  · intro a ha b hb
    rw [hA a ha]
    exact Nat.zero_le _

/-- An interface-attachment call sits in phase 2. -/
theorem isInterfaceCall_phase (c : SagaCall) (h : isInterfaceCall c = true) :
    phase c = 2 := by
  cases c <;> simp [isInterfaceCall] at h <;> rfl

/-- The `createHost` call sits in phase 4. -/
theorem isCreateHostCall_phase (c : SagaCall) (h : isCreateHostCall c = true) :
    phase c = 4 := by
  cases c <;> simp [isCreateHostCall] at h <;> rfl

/-- The metadata write-back sits in phase 7. -/
theorem isMetadataWrite_phase (c : SagaCall) (h : isMetadataWrite c = true) :
    phase c = 7 := by
  cases c <;> simp [isMetadataWrite] at h <;> rfl

/-- The full trace of one create saga (attempted calls plus the optional
metadata write-back) is ordered by phase. -/
theorem trace_pairwise (w : SagaWorld) (vm : VmData) :
    (handle_create_machine w vm).Pairwise (fun a b => phase a ≤ phase b) := by
  unfold handle_create_machine
  split
  · refine List.pairwise_append.mpr ⟨?_, ?_, ?_⟩
    · exact (plan_pairwise w).sublist (runCalls_sublist w (plan w))
    · split <;> simp
    · intro a ha b hb
      split at hb
      · simp only [List.mem_singleton] at hb
        rw [hb]
        exact le_trans (phase_le_seven a) (by rfl)
      · simp at hb
  · simp

/-- Along a saga trace, a call in a strictly earlier phase sits at a
strictly earlier position. -/
theorem trace_phase_mono (w : SagaWorld) (vm : VmData)
    (i j : Fin (handle_create_machine w vm).length)
    (h : phase ((handle_create_machine w vm).get i)
        < phase ((handle_create_machine w vm).get j)) : (i : Nat) < (j : Nat) := by
  rcases Nat.lt_trichotomy (i : Nat) (j : Nat) with hlt | heq | hgt
  · exact hlt
  · exact absurd h (by rw [Fin.ext (by exact heq : (i : Nat) = (j : Nat))]; simp)
  · have := List.pairwise_iff_get.mp (trace_pairwise w vm) j i (by exact hgt)
    omega

/-- C2: for every registry HTTP request issued by the client, the outcome
is classified three ways: a 400 response raises `AquilonError` carrying the
response body as its message; a 200 response returns the response body; any
other status raises `ConnectionError` after logging the request URL, and
the client issues the request exactly once (no client-level retry). -/
theorem setup_requests_outcome_classification (w : RegistryWorld)
    (url method desc : String) (hk : w.klistExit ≠ 1) :
    (setup_requests w url method desc).requests = [⟨url, method, desc⟩]
    ∧ ((w.respond ⟨url, method, desc⟩).1 = 400 →
        (setup_requests w url method desc).result
          = Except.error (AqErr.aquilonError (w.respond ⟨url, method, desc⟩).2))
    ∧ ((w.respond ⟨url, method, desc⟩).1 = 200 →
        (setup_requests w url method desc).result
          = Except.ok (w.respond ⟨url, method, desc⟩).2)
    ∧ ((w.respond ⟨url, method, desc⟩).1 ≠ 400 →
        (w.respond ⟨url, method, desc⟩).1 ≠ 200 →
        (setup_requests w url method desc).result
          = Except.error (AqErr.connectionError
              ("Failed " ++ desc ++ ": " ++ toString (w.respond ⟨url, method, desc⟩).1
                ++ " -\x7bresponse.text\x7d"))
        ∧ url ∈ (setup_requests w url method desc).logs) := by
  have hb : (w.klistExit == 1) = false := by simpa using hk
  refine ⟨setup_requests_one_request w url method desc hk, ?_, ?_, ?_⟩
  · intro h400
    simp [setup_requests, verify_kerberos_ticket, hb, h400]
  · intro h200
    simp [setup_requests, verify_kerberos_ticket, hb, h200]
  · intro h400 h200
    have hb400 : ((w.respond ⟨url, method, desc⟩).1 == 400) = false := by simpa using h400
    have hb200 : ((w.respond ⟨url, method, desc⟩).1 != 200) = true := by simpa using h200
    simp [setup_requests, verify_kerberos_ticket, hb, hb400, hb200]

/-- C2 witness: with a valid ticket and a registry answering 404, the
client raises the transport error with the literal source message. -/
theorem setup_requests_outcome_classification_witness :
    (setup_requests wReg404 "https://aq.example.org/host/h1" "get" "Check Host").result
      = Except.error (AqErr.connectionError
          "Failed Check Host: 404 -\x7bresponse.text\x7d") :=
  ((setup_requests_outcome_classification wReg404 "https://aq.example.org/host/h1"
      "get" "Check Host" (by decide)).2.2.2 (by decide) (by decide)).1

/-- C9: `verify_kerberos_ticket` raises exactly when the `klist` subprocess
exits with status 1; any other exit status (0, 2, ...) is treated as a valid
ticket and the registry request is then issued. -/
theorem verify_kerberos_ticket_only_exit_one (w : RegistryWorld)
    (url method desc : String) :
    (verify_kerberos_ticket w = Except.error kerbErr ↔ w.klistExit = 1)
    ∧ (w.klistExit ≠ 1 →
        verify_kerberos_ticket w = Except.ok true
        ∧ (setup_requests w url method desc).requests = [⟨url, method, desc⟩]) := by
  constructor
  · constructor
    · intro h
      by_contra hne
      have hb : (w.klistExit == 1) = false := by simpa using hne
      simp [verify_kerberos_ticket, hb] at h
    · intro h
      simp [verify_kerberos_ticket, h, kerbErr]
  · intro hne
    have hb : (w.klistExit == 1) = false := by simpa using hne
    exact ⟨by simp [verify_kerberos_ticket, hb],
      setup_requests_one_request w url method desc hne⟩

/-- C9 witness: a `klist` exit status of 2 is treated as a valid ticket and
the request is issued anyway. -/
theorem verify_kerberos_ticket_only_exit_one_witness :
    verify_kerberos_ticket wReg2 = Except.ok true
    ∧ (setup_requests wReg2 "https://aq.example.org/host/h1" "get" "Check Host").requests
        = [⟨"https://aq.example.org/host/h1", "get", "Check Host"⟩] :=
  (verify_kerberos_ticket_only_exit_one wReg2 "https://aq.example.org/host/h1"
      "get" "Check Host").2 (by decide)

/-- C5: for every registry operation (make, manage, create/delete machine,
create/delete host, interface calls, host-existence check), the Kerberos
ticket is checked before the HTTP request is issued; when `klist -s`
reports no valid ticket, the operation raises the fatal `RuntimeError`
precondition failure and issues no request at all. -/
theorem kerberos_gate_blocks_all_ops (cfg : ConsumerConfig) (w : RegistryWorld)
    (hostname machinename pre firstip osname osversion mac iface ipaddr fq : String)
    (f : AqFields) (msg : RabbitMessage)
    (hk : w.klistExit = 1) (hh : pyBlank hostname = false) :
    ((aq_make cfg w hostname f).result = Except.error kerbErr
      ∧ (aq_make cfg w hostname f).requests = [])
    ∧ ((aq_manage cfg w hostname "domain" "d").result = Except.error kerbErr
      ∧ (aq_manage cfg w hostname "domain" "d").requests = [])
    ∧ ((create_machine cfg w msg hostname pre).result = Except.error kerbErr
      ∧ (create_machine cfg w msg hostname pre).requests = [])
    ∧ ((delete_machine cfg w machinename).result = Except.error kerbErr
      ∧ (delete_machine cfg w machinename).requests = [])
    ∧ ((create_host cfg w hostname machinename firstip osname osversion).result
          = Except.error kerbErr
      ∧ (create_host cfg w hostname machinename firstip osname osversion).requests = [])
    ∧ ((delete_host cfg w hostname).result = Except.error kerbErr
      ∧ (delete_host cfg w hostname).requests = [])
    ∧ ((add_machine_interface cfg w machinename mac iface).result = Except.error kerbErr
      ∧ (add_machine_interface cfg w machinename mac iface).requests = [])
    ∧ ((add_machine_interface_address cfg w machinename ipaddr iface fq).result
          = Except.error kerbErr
      ∧ (add_machine_interface_address cfg w machinename ipaddr iface fq).requests = [])
    ∧ ((update_machine_interface cfg w machinename iface).result = Except.error kerbErr
      ∧ (update_machine_interface cfg w machinename iface).requests = [])
    ∧ ((check_host_exists cfg w hostname).result = Except.error kerbErr
      ∧ (check_host_exists cfg w hostname).requests = []) := by
  have hb : (w.klistExit == 1) = true := by simpa using hk
  have hsetup : ∀ u m d, setup_requests w u m d
      = ⟨Except.error kerbErr, [], []⟩ := by
    intro u m d
    simp [setup_requests, verify_kerberos_ticket, hb, kerbErr]
  refine ⟨⟨?_, ?_⟩, ⟨?_, ?_⟩, ⟨?_, ?_⟩, ⟨?_, ?_⟩, ⟨?_, ?_⟩, ⟨?_, ?_⟩, ⟨?_, ?_⟩,
    ⟨?_, ?_⟩, ⟨?_, ?_⟩, ⟨?_, ?_⟩⟩ <;>
    simp [aq_make, aq_manage, create_machine, delete_machine, create_host,
      delete_host, add_machine_interface, add_machine_interface_address,
      update_machine_interface, check_host_exists, hh, hsetup, kerbErr]

/-- C5 witness: with `klist` exiting 1, `delete_machine` raises the
precondition failure and issues no request. -/
theorem kerberos_gate_blocks_all_ops_witness :
    (delete_machine cfg0 wRegNoTicket "vm123").result = Except.error kerbErr
    ∧ (delete_machine cfg0 wRegNoTicket "vm123").requests = [] :=
  (kerberos_gate_blocks_all_ops cfg0 wRegNoTicket "host1" "vm123" "AQ" "10.0.0.5"
      "rocky" "8" "aa:bb" "eth0" "10.0.0.5" "vm1.example.com"
      ⟨"", "", "", ""⟩ ⟨⟨4, 8192, "abc-123", "hv01"⟩⟩ (by decide) (by decide)).2.2.2.1

/-- C10: every `set_env` call issues exactly one manage request — with
environment type "domain" when the domain argument is truthy (the sandbox
argument is ignored), otherwise with environment type "sandbox" even for a
`None` sandbox (rendered "None") — the manage request is the first request
issued, and when `aq_manage` raises, no further request (in particular no
make request) is issued, so `aq_make` only runs after a successful manage. -/
theorem set_env_single_manage_then_make (cfg : ConsumerConfig) (w : RegistryWorld)
    (aqd : AqFields) (hostname : String) (domain sandbox : Option String)
    (hk : w.klistExit ≠ 1) :
    (set_env cfg w aqd domain hostname sandbox).requests.filter isManageReq
      = [manageRequest cfg hostname (envPair domain sandbox).1 (envPair domain sandbox).2]
    ∧ (set_env cfg w aqd domain hostname sandbox).requests.head?
      = some (manageRequest cfg hostname (envPair domain sandbox).1
          (envPair domain sandbox).2)
    ∧ (∀ e, (aq_manage cfg w hostname (envPair domain sandbox).1
          (envPair domain sandbox).2).result = Except.error e →
        (set_env cfg w aqd domain hostname sandbox).requests
          = [manageRequest cfg hostname (envPair domain sandbox).1
              (envPair domain sandbox).2]) := by
  have hman : ∀ et en, (aq_manage cfg w hostname et en).requests
      = [manageRequest cfg hostname et en] := by
    intro et en
    exact setup_requests_one_request w _ _ _ hk
  have hmake : ∀ r ∈ (aq_make cfg w hostname aqd).requests, isManageReq r = false := by
    intro r hr
    have := aq_make_requests_desc cfg w hostname aqd r hr
    simp [isManageReq, this]
  cases hd : pyTruthy domain with
  | true =>
    have hep : envPair domain sandbox = ("domain", pyStr domain) := by
      simp [envPair, hd]
    rw [hep]
    simp only [set_env, hd, if_true]
    cases hres : (aq_manage cfg w hostname "domain" (pyStr domain)).result with
    | error e =>
      simp only [hres]
      refine ⟨?_, ?_, ?_⟩
      · simp [hman, isManageReq, manageRequest]
      · simp [hman, manageRequest]
      · intro e2 _; simp [hman]
    | ok v =>
      simp only [hres]
      refine ⟨?_, ?_, ?_⟩
      · rw [List.filter_append, hman]
        have hmf : List.filter isManageReq (aq_make cfg w hostname aqd).requests = [] :=
          List.filter_eq_nil_iff.mpr (fun r hr => by simp [hmake r hr])
        rw [hmf]
        simp [isManageReq, manageRequest]
      · simp [hman, manageRequest]
      · intro e2 he2; exact absurd he2 (by simp)
  | false =>
    have hep : envPair domain sandbox = ("sandbox", pyStr sandbox) := by
      simp [envPair, hd]
    rw [hep]
    simp only [set_env, hd, Bool.false_eq_true, if_false]
    cases hres : (aq_manage cfg w hostname "sandbox" (pyStr sandbox)).result with
    | error e =>
      simp only [hres]
      refine ⟨?_, ?_, ?_⟩
      · simp [hman, isManageReq, manageRequest]
      · simp [hman, manageRequest]
      · intro e2 _; simp [hman]
    | ok v =>
      simp only [hres]
      refine ⟨?_, ?_, ?_⟩
      · rw [List.filter_append, hman]
        have hmf : List.filter isManageReq (aq_make cfg w hostname aqd).requests = [] :=
          List.filter_eq_nil_iff.mpr (fun r hr => by simp [hmake r hr])
        rw [hmf]
        simp [isManageReq, manageRequest]
      · simp [hman, manageRequest]
      · intro e2 he2; exact absurd he2 (by simp)

/-- C10 witness: with a truthy domain and a `None` sandbox, the single
manage request uses environment type "domain" and comes first. -/
theorem set_env_single_manage_then_make_witness :
    (set_env cfg0 wReg200 ⟨"", "", "", ""⟩ (some "prod-domain") "host1" none).requests.head?
      = some (manageRequest cfg0 "host1" (envPair (some "prod-domain") none).1
          (envPair (some "prod-domain") none).2) :=
  (set_env_single_manage_then_make cfg0 wReg200 ⟨"", "", "", ""⟩ "host1"
      (some "prod-domain") none (by decide)).2.1

/-- C3: for every delete event, the delete handler issues exactly one
`deleteMachine` request; a 400 "not found" response does not raise from the
handler's perspective (already-absent machines are treated as success), and
the dispatcher acknowledges the delete message exactly once whether or not
the handler raised. -/
theorem delete_handler_not_found_ok (cfg : ConsumerConfig) (w : RegistryWorld)
    (name : String) (hk : w.klistExit ≠ 1) :
    (handle_machine_delete cfg w name).requests = [deleteMachineRequest cfg name]
    ∧ ((w.respond (deleteMachineRequest cfg name)).1 = 400 →
        py_in "not found" (w.respond (deleteMachineRequest cfg name)).2 = true →
        (handle_machine_delete cfg w name).result = Except.ok ())
    ∧ (∀ handlerRaises : Bool,
        (on_message handlerRaises EventType.deleted).acks = 1) := by
  have hreq : (delete_machine cfg w name).requests = [deleteMachineRequest cfg name] :=
    setup_requests_one_request w _ _ _ hk
  have hb : (w.klistExit == 1) = false := by simpa using hk
  refine ⟨?_, ?_, ?_⟩
  · exact hreq
  · intro h400 hnf
    have hb400 : ((w.respond ⟨cfg.aq_url ++ "/machine/" ++ name, "delete",
        "Delete Machine"⟩).1 == 400) = true := by
      simpa [deleteMachineRequest] using h400
    have hres : (delete_machine cfg w name).result
        = Except.error (AqErr.aquilonError
            (w.respond (deleteMachineRequest cfg name)).2) := by
      simp [delete_machine, setup_requests, verify_kerberos_ticket, hb, hb400,
        deleteMachineRequest]
    simp only [handle_machine_delete]
    rw [hres]
    simp [hnf]
  · intro r; rfl

/-- C3 witness: against a registry answering 400 "not found", the delete
handler returns success. -/
theorem delete_handler_not_found_ok_witness :
    (handle_machine_delete cfg0 wRegNotFound "vm123").result = Except.ok () :=
  (delete_handler_not_found_ok cfg0 wRegNotFound "vm123" (by decide)).2.1
    (by decide) (by decide)

/-- C4: for every inbound message, the dispatcher acknowledges exactly once
after the handler returns, whether or not the handler raised; and for every
unsupported event type, neither the eligibility gate nor a handler is
invoked, yet the message is still acknowledged. -/
theorem on_message_ack_unconditional (handlerRaises : Bool) (ev : EventType) :
    (on_message handlerRaises ev).acks = 1
    ∧ (supportedEvent ev = false →
        (on_message handlerRaises ev).gateCalls = 0
        ∧ (on_message handlerRaises ev).handlerCalls = 0) := by
  cases ev <;> simp [on_message, supportedEvent]

/-- C4 witness: a message of unsupported type "wrong" whose handler would
raise is acknowledged once, with no gate and no handler invocation. -/
theorem on_message_ack_unconditional_witness :
    (on_message true (EventType.other "wrong")).gateCalls = 0
    ∧ (on_message true (EventType.other "wrong")).handlerCalls = 0 :=
  (on_message_ack_unconditional true (EventType.other "wrong")).2 rfl

/-- C6: `check_machine_valid` returns true iff the instance still exists in
the cloud platform and `is_aq_managed_image` is truthy; the image check is
invoked exactly when the instance exists, so a vanished instance returns
false immediately without the image check. -/
theorem check_machine_valid_shortcircuit (w : SagaWorld) :
    (check_machine_valid w).1 = (w.instanceExists && is_aq_managed_image w.imageTags)
    ∧ (check_machine_valid w).2 = w.instanceExists := by
  cases h : w.instanceExists <;> simp [check_machine_valid, h]

/-- C7: the metadata write-back appears in a create-saga trace exactly when
the saga was validated, every registry call succeeded and the instance is
still visible in the cloud platform; in particular a vanished instance gets
no metadata update even when all registry calls succeeded, and when the
write-back happens it writes the comma-joined fqdns under HOSTNAMES plus
the AQ_STATUS SUCCESS marker. -/
theorem metadata_writeback_only_if_visible (w : SagaWorld) (vm : VmData) :
    (handle_create_machine w vm).filter isMetadataWrite
      = (if ((check_machine_valid w).1 && (runCalls w (plan w)).2 && w.existsAtEnd)
         then [SagaCall.metadataWrite vm.instanceId (hostnamesOf w.bindings)]
         else [])
    ∧ add_hostname_to_metadata false w.bindings = none
    ∧ add_hostname_to_metadata true w.bindings
        = some [("HOSTNAMES", hostnamesOf w.bindings), ("AQ_STATUS", "SUCCESS")] := by
  refine ⟨?_, rfl, rfl⟩
  have hplan : (plan w).filter isMetadataWrite = [] := by
    unfold plan
    simp only [List.filter_append, nicCalls_filter_meta]
    split <;> cases w.bindings <;> simp [isMetadataWrite]
  have hex : (runCalls w (plan w)).1.filter isMetadataWrite = [] := by
    have hsub : List.Sublist ((runCalls w (plan w)).1.filter isMetadataWrite)
        ((plan w).filter isMetadataWrite) :=
      List.Sublist.filter _ (runCalls_sublist w (plan w))
    rw [hplan] at hsub
    exact List.sublist_nil.mp hsub
  cases hv : (check_machine_valid w).1 with
  | false => simp [handle_create_machine, hv]
  | true =>
    simp only [handle_create_machine, hv, if_true, List.filter_append, hex,
      List.nil_append, Bool.true_and]
    split
    · simp [isMetadataWrite]
    · rfl

/-- C8: for a create saga over a non-empty binding sequence (length 1 or N)
in which every registry call succeeds, exactly one interface is marked
bootable/default-route, and it is the interface of the first element of the
binding sequence. -/
theorem bootable_is_first_binding (w : SagaWorld) (vm : VmData)
    (b : NetworkBinding) (rest : List NetworkBinding)
    (hb : w.bindings = b :: rest)
    (hv : (check_machine_valid w).1 = true)
    (hok : ∀ c, w.callOk c = true) :
    (handle_create_machine w vm).filter isBootableCall
      = [SagaCall.setBootable w.machineName b.interfaceName] := by
  have hrun : runCalls w (plan w) = (plan w, true) := runCalls_all_ok w hok (plan w)
  simp only [handle_create_machine, hv, if_true, hrun, List.filter_append]
  have hplanf : (plan w).filter isBootableCall
      = [SagaCall.setBootable w.machineName b.interfaceName] := by
    unfold plan
    rw [hb]
    simp only [List.filter_append, nicCalls_filter_boot]
    split <;> simp [isBootableCall]
  rw [hplanf]
  split <;> simp [isBootableCall]

/-- C8 witness: in the concrete one-binding world, the only bootable call
targets eth0, the first binding's interface. -/
theorem bootable_is_first_binding_witness :
    (handle_create_machine wSaga0 vm0).filter isBootableCall
      = [SagaCall.setBootable "mXYZ" "eth0"] :=
  bootable_is_first_binding wSaga0 vm0 nb0 [] rfl rfl (fun _ => rfl)

/-- C1: for every create event that passes validation, the saga trace calls
`createMachine` before any interface-attachment call, calls `createHost`
only after every interface call, and `manage`, `makeTemplates` and the
metadata write-back follow in that order; on the all-success path those
calls are all present (the write-back when the instance is still
visible). -/
theorem aq_create_saga_order (w : SagaWorld) (vm : VmData)
    (hv : (check_machine_valid w).1 = true) :
    (∀ i j : Fin (handle_create_machine w vm).length,
        (handle_create_machine w vm).get i = SagaCall.createMachineCall →
        isInterfaceCall ((handle_create_machine w vm).get j) = true →
        (i : Nat) < (j : Nat))
    ∧ (∀ i j : Fin (handle_create_machine w vm).length,
        isInterfaceCall ((handle_create_machine w vm).get i) = true →
        isCreateHostCall ((handle_create_machine w vm).get j) = true →
        (i : Nat) < (j : Nat))
    ∧ (∀ i j : Fin (handle_create_machine w vm).length,
        isCreateHostCall ((handle_create_machine w vm).get i) = true →
        (handle_create_machine w vm).get j = SagaCall.manageCall →
        (i : Nat) < (j : Nat))
    ∧ (∀ i j : Fin (handle_create_machine w vm).length,
        (handle_create_machine w vm).get i = SagaCall.manageCall →
        (handle_create_machine w vm).get j = SagaCall.makeTemplatesCall →
        (i : Nat) < (j : Nat))
    ∧ (∀ i j : Fin (handle_create_machine w vm).length,
        (handle_create_machine w vm).get i = SagaCall.makeTemplatesCall →
        isMetadataWrite ((handle_create_machine w vm).get j) = true →
        (i : Nat) < (j : Nat))
    ∧ ((∀ c, w.callOk c = true) →
        SagaCall.createMachineCall ∈ handle_create_machine w vm
        ∧ SagaCall.manageCall ∈ handle_create_machine w vm
        ∧ SagaCall.makeTemplatesCall ∈ handle_create_machine w vm
        ∧ (w.existsAtEnd = true →
            SagaCall.metadataWrite vm.instanceId (hostnamesOf w.bindings)
              ∈ handle_create_machine w vm)) := by
  refine ⟨?_, ?_, ?_, ?_, ?_, ?_⟩
  · intro i j hi hj
    exact trace_phase_mono w vm i j
      (by rw [hi, isInterfaceCall_phase _ hj]; norm_num [phase])
  · intro i j hi hj
    exact trace_phase_mono w vm i j
      (by rw [isInterfaceCall_phase _ hi, isCreateHostCall_phase _ hj]; norm_num)
  · intro i j hi hj
    exact trace_phase_mono w vm i j
      (by rw [isCreateHostCall_phase _ hi, hj]; norm_num [phase])
  · intro i j hi hj
    exact trace_phase_mono w vm i j
      (by rw [hi, hj]; norm_num [phase])
  · intro i j hi hj
    exact trace_phase_mono w vm i j
      (by rw [hi, isMetadataWrite_phase _ hj]; norm_num [phase])
  · intro hok
    have hrun : runCalls w (plan w) = (plan w, true) := runCalls_all_ok w hok (plan w)
    have ht : handle_create_machine w vm
        = plan w ++ (if w.existsAtEnd then
            [SagaCall.metadataWrite vm.instanceId (hostnamesOf w.bindings)]
          else []) := by
      simp [handle_create_machine, hv, hrun]
    refine ⟨?_, ?_, ?_, ?_⟩
    · rw [ht]; unfold plan; simp
    · rw [ht]; unfold plan; simp
    · rw [ht]; unfold plan; simp
    · intro hend; rw [ht, hend]; simp

/-- C1 witness: in the concrete all-success world, the validated create
saga contains the createMachine call. -/
theorem aq_create_saga_order_witness :
    SagaCall.createMachineCall ∈ handle_create_machine wSaga0 vm0 :=
  ((aq_create_saga_order wSaga0 vm0 rfl).2.2.2.2.2 (fun _ => rfl)).1
